import Mathlib

/-!
Verification development for the Marketing-Content-Generation app (`app.py`).

The app's retrieval chain, prompt builders, word-limit post-processor and
generate/refine session handlers are shallowly embedded below.  Python strings
are Lean `String`s; Python `str.split()/strip()/rstrip()/join` are modelled
character-exactly; external collaborators (file text extraction, URL fetching,
HANA similarity search, Perplexity search, the chat-completion client) are
oracle functions supplied as parameters, and the calls the code makes to them
are recorded in an explicit trace so that short-circuiting is provable.
-/

namespace MarketingApp

/-- Python whitespace, as consumed by no-argument `str.split()` / `str.strip()`. -/
def isPySpace (c : Char) : Bool :=
  c = ' ' || c = '\t' || c = '\n' || c = '\r' || c = '\x0b' || c = '\x0c'

/-- The character set of `rstrip(',;:')` in `enforce_word_limit`. -/
def isRStripChar (c : Char) : Bool :=
  c = ',' || c = ';' || c = ':'

/-- The terminal punctuation tested by `endswith((".", "!", "?"))`. -/
def isTerminalChar (c : Char) : Bool :=
  c = '.' || c = '!' || c = '?'

/-- Core of Python `text.split()` (no argument): split on runs of whitespace,
producing no empty words.  `cur` accumulates the current word, reversed. -/
def splitWords : List Char → List Char → List (List Char)
  | [], cur => if cur = [] then [] else [cur.reverse]
  | c :: cs, cur =>
    if isPySpace c then
      if cur = [] then splitWords cs [] else cur.reverse :: splitWords cs []
    else splitWords cs (c :: cur)

/-- Python `text.split()`. -/
def pySplit (s : String) : List String :=
  (splitWords s.data []).map fun w => ⟨w⟩

/-- Single-space join at the `List Char` level (`" ".join` semantics). -/
def joinWords : List (List Char) → List Char
  | [] => []
  | [w] => w
  | w :: v :: ws => w ++ ' ' :: joinWords (v :: ws)

/-- Python `sep.join(pieces)`. -/
def pyJoin (sep : String) : List String → String
  | [] => ""
  | [w] => w
  | w :: v :: ws => w ++ sep ++ pyJoin sep (v :: ws)

/-- Python `s.strip()` (both ends, whitespace). -/
def pyStrip (s : String) : String :=
  ⟨((s.data.dropWhile isPySpace).reverse.dropWhile isPySpace).reverse⟩

/-- Python `s.rstrip(',;:')` at the `List Char` level. -/
def rstripPunct (l : List Char) : List Char :=
  (l.reverse.dropWhile isRStripChar).reverse

/-- Python `s.rstrip(',;:')`. -/
def pyRStripPunct (s : String) : String :=
  ⟨rstripPunct s.data⟩

/-- Python `s.endswith((".", "!", "?"))`. -/
def pyEndsTerminal (s : String) : Bool :=
  match s.data.getLast? with
  | some c => isTerminalChar c
  | none => false

/-- Python `s.lower()` (the app only compares ASCII text). -/
def pyLower (s : String) : String :=
  ⟨s.data.map Char.toLower⟩

/-- Python `s.startswith(t)`. -/
def pyStartsWith (s t : String) : Bool :=
  t.data.isPrefixOf s.data

/-- Python `a or b` on strings: the empty string is falsy. -/
def pyOr (a b : String) : String :=
  if a = "" then b else a

/-- Number of whitespace-separated words of a string, i.e. `len(s.split())`. -/
def wordCount (s : String) : Nat :=
  (pySplit s).length

/-- `t` occurs contiguously inside `s`. -/
def strContains (s t : String) : Prop :=
  ∃ pre suf : String, s = pre ++ t ++ suf

/-- `enforce_word_limit(text, limit)` from `app.py`: keep the first `limit`
words and make the result end gracefully in terminal punctuation. -/
def enforce_word_limit (text : String) (limit : Int) : String :=
  if limit = 0 ∨ limit ≤ 0 then text
  else
    let words := pySplit text
    if (words.length : Int) ≤ limit then text
    else
      let trimmed := pyJoin " " (words.take limit.toNat)
      if pyEndsTerminal trimmed then trimmed
      else pyRStripPunct trimmed ++ "."

/-- Python dict-literal construction followed by `.get(key, default)`: a later
duplicate key overwrites an earlier one (the source repeats "Authoritative"). -/
def dictGet (entries : List (String × String)) (key default : String) : String :=
  entries.foldl (fun acc p => if p.1 = key then p.2 else acc) default

/-- The `tone_guidelines` dict of `generate_prompt_guidelines`, in source order. -/
def tone_guidelines : List (String × String) := [
  ("Professional", "Use clear, concise, and confident language. Focus on credibility, precision, and business relevance."),
  ("Friendly", "Use warm, conversational, and easy-to-understand language. Maintain professionalism but sound approachable."),
  ("Authoritative", "Use confident, expert-driven language. Provide strong arguments and data-backed insights."),
  ("Playful", "Use witty, light-hearted, and creative phrasing. Keep the tone fun yet informative, with clever transitions."),
  ("Inspirational", "Use motivational and uplifting language. Focus on positive change, growth, and vision-driven storytelling."),
  ("Conversational", "Write as if speaking naturally to the reader. Use a relaxed and engaging tone with simple, flowing sentences."),
  ("Casual", "Keep the language light, informal, and easy to follow. Avoid jargon; use contractions and relatable examples."),
  ("Semi-casual", "Balance professionalism with friendliness. Use polite, natural phrasing that feels human but credible."),
  ("Business professional", "Maintain a formal, respectful tone suitable for executive audiences. Emphasize clarity, accuracy, and authority."),
  ("Approachable", "Use inclusive and welcoming language. Avoid overly technical terms; sound supportive and open to dialogue."),
  ("Informative", "Focus on clarity and explanation. Use structured, factual sentences that educate the reader efficiently."),
  ("Assertive", "Use confident, decisive language. Clearly express opinions or recommendations without sounding aggressive."),
  ("Authoritative", "Adopt an expert voice with data-backed reasoning. Establish trust through precision and confidence."),
  ("Engaging", "Use dynamic, audience-focused language. Vary rhythm, include questions, and keep readers emotionally connected."),
  ("First person usage + Visionary (for Thought Leadership Articles)", "Use \x27I\x27 or \x27we\x27 statements to express personal experience and vision. Inspire forward-thinking perspectives and leadership insights."),
  ("Confident", "Use strong, assured language with active voice. Present ideas as well-founded and impactful."),
  ("Data-driven", "Use factual, analytical language supported by evidence and statistics. Focus on insights, accuracy, and quantifiable outcomes."),
  ("Plainspoken or direct", "Be concise, honest, and transparent. Avoid buzzwords and fluff; prioritize clarity and directness."),
  ("Witty (a bit of humour for special cases)", "Add subtle humor or clever turns of phrase. Keep it tasteful, intelligent, and contextually relevant."),
  ("Storytelling", "Use narrative-driven language with emotional pull. Build flow with characters, challenges, and resolutions to keep readers immersed.")]

/-- The `audience_guidelines` dict of `generate_prompt_guidelines`. -/
def audience_guidelines : List (String × String) := [
  ("Senior Management", "Focus on strategic insights, ROI, and business impact. Use concise, high-level language. Avoid unnecessary technical details."),
  ("Middle Management", "Provide actionable guidance, practical steps, and process-oriented insights. Balance strategic context with implementation advice."),
  ("Junior/Entry Level Staff", "Explain clearly, use simple examples, and avoid jargon. Focus on learning, awareness, and foundational concepts.")]

/-- `generate_prompt_guidelines(tone, target_audience)`: dictionary lookups
with empty-string defaults. -/
def generate_prompt_guidelines (tone target_audience : String) : String × String :=
  (dictGet tone_guidelines tone "", dictGet audience_guidelines target_audience "")

/-- The strict word-limit instruction built inside `generate_blog_prompt`;
empty when `word_limit` is falsy (`None` or `0`). -/
def word_limit_instruction (word_limit : Option Int) : String :=
  match word_limit with
  | none => ""
  | some w =>
    if w = 0 then ""
    else
      "The final blog MUST be between " ++ toString (max (max 1 (w - 20)) 1) ++
        " and " ++ toString (w + 20) ++
        " words. Do NOT exceed this range. Stop immediately once you reach the word limit."

/-- Python f-string rendering of the raw `word_limit` value (`None` or an int). -/
def showWordLimit : Option Int → String
  | none => "None"
  | some w => toString w

/-- `generate_blog_prompt` from `app.py`, with the f-string template rendered
as explicit concatenation in source order. -/
def generate_blog_prompt (tone target_audience industry query : String)
    (word_limit : Option Int) (final_content primary_keyword : String)
    (lsi_keywords : List String) (cta_text : String) : String :=
  let tone_instruction := (generate_prompt_guidelines tone target_audience).1
  let audience_instruction := (generate_prompt_guidelines tone target_audience).2
  let wli := word_limit_instruction word_limit
  "\nYou are an experienced B2B blog writer specializing in SAP, AI, and enterprise technology domains.\nYour goal is to create a marketing-grade, SEO-optimized, structured, and natural blog aligned with\nenterprise communication standards. Follow these exact rules:\n\n=======\x3d=======\x3d=======\x3d=======\x3d=======\x3d=======\x3d=====\n🎯 TONE & STYLE\n=======\x3d=======\x3d=======\x3d=======\x3d=======\x3d=======\x3d=====\n- The language must always sound **natural, human, and conversational** — not robotic or AI-generated.\n- Be authoritative, clear, and practical — like McKinsey insights simplified by 20%.\n- Every line must add business value and flow naturally.\n- Avoid over-formal phrasing, buzzwords, or filler lines (“In today’s world”, “cutting-edge”, etc.).\n- Every line must add business value while flowing smoothly.\n- Write like a smart consultant guiding a professional audience.\n- Tone: " ++
    tone_instruction ++
    "\n- Audience: " ++
    audience_instruction ++
    "\n\n**Strict Blog Structure and Formatting Guidelines:**\n\n1️ **Title**\n   - Must be the first line of the blog.\n   - The title must appear in h1 style to it of markdown.\n   - Keep it short, focused, and benefit-driven.\n   - Keep it under 12 words and include the primary keyword naturally.\n   - Avoid clickbait or overpromises.\n   - Recommended formats:\n       • How [X] Helps [Y] Achieve [Z]\n       • [Number] Ways to [Achieve Outcome]\n       • Why [X] Isn’t Working—And How to Fix It\n       • [Phrase] in the Age of [Trend]\n\n2️ **Introduction**\n   - Begin with a real scenario or insight (max 4 lines).\n   - Build context in 1–2 short paragraphs.\n   - Smoothly bridge to the topic—no “In this blog we’ll discuss”.\n\n3️⃣ **Body Sections (3–5 H2s)**\n   - Use descriptive or question-style subheadings (##).\n    Each section must include **at least 3 rich paragraphs** that:\n       • Explain the business context or challenge clearly.\n       • Add examples, relatable scenarios, or short client-style stories.\n       • Include supporting insights, stats, or outcomes.\n       • End with a meaningful business takeaway.\n   - Use connecting phrases (“This means…”, “For example…”, “In practice…”) to sound more natural.\n   - Maintain a balance between data and narrative — avoid sounding like a report.\n   - For shorter word limits (under 800 words), focus on **depth over quantity**: fewer sections, more substance per section.\n   - Include supporting data if relevant (“According to a 2025 SAPinsider study…”).\n   - Use lists only when they enhance clarity.\n\n4️⃣ **Conclusion (Action-Oriented)**\n   - Title example: “Accelerate Your Journey with [Solution]” or “Unlock the Future of [Topic]”.\n   - Summarize key insights in 3–4 lines.\n   - End with a strong CTA: “" ++
    cta_text ++
    "”\n\n=======\x3d=======\x3d=======\x3d=======\x3d=======\x3d=======\x3d=====\n📊 SEO REQUIREMENTS\n=======\x3d=======\x3d=======\x3d=======\x3d=======\x3d=======\x3d=====\n- Primary Keyword: \"" ++
    primary_keyword ++
    "\"\n  • Use in Title, Intro (first 100 words), at least one H2, and 2–3 times in the body.\n- LSI Keywords: " ++
    (pyOr (pyJoin ", " lsi_keywords) "none") ++
    "\n  • Include naturally where relevant, never stuffed.\n- Optimize for readability and human tone — not keyword density.\n- Use Markdown headings (##, ###) for structure.\n\n=======\x3d=======\x3d=======\x3d=======\x3d=======\x3d=======\x3d=====\n🧱 CONTENT CONTEXT\n=======\x3d=======\x3d=======\x3d=======\x3d=======\x3d=======\x3d=====\nIndustry: " ++
    (pyOr industry "Enterprise / B2B") ++
    "\nWord Limit: ~" ++
    showWordLimit word_limit ++
    " words\nTopic: \"" ++
    query ++
    "\"\n\nREFERENCE CONTENT:\n" ++
    (pyOr final_content "[No reference content provided]") ++
    "\n\n=======\x3d=======\x3d=======\x3d=======\x3d=======\x3d=======\x3d=====\n💡 FINAL INSTRUCTION\n=======\x3d=======\x3d=======\x3d=======\x3d=======\x3d=======\x3d=====\nWrite the blog in one coherent piece — no step-by-step notes, no bullet outlines, no commentary.\nOutput only the **final polished blog**, formatted for publishing.\nEnsure:\n- Do not add ```markdown at start and ``` at the end of response.\n- Leave one blank line after the title before the introduction begins.\n- The rest of the structure strictly follows the format above.\n- Ensure the blog reads naturally and conversationally — it should sound like expert storytelling, not a technical report.\n- When the total word limit is under 800, prioritize deeper insights per section instead of squeezing in more headings.\n- Headings should be in bold \n\n" ++
    wli ++
    "\n\n"

/-- Python `int()` applied to a rational value: truncation toward zero.  The
slider durations are halves, on which IEEE double arithmetic is exact, so the
app's float computation is modelled exactly by rational arithmetic. -/
def pyInt (q : ℚ) : Int :=
  if 0 ≤ q then ⌊q⌋ else -⌊-q⌋

/-- Python `str()` of the duration slider's float value; the slider only
produces half-integral values, printed as `1.5`, `2.0`, and so on. -/
def showHalfQ (q : ℚ) : String :=
  if q.den = 1 then toString q.num ++ ".0" else toString ⌊q⌋ ++ ".5"

/-- Python `format(n, "02d")`: zero-pad to two digits. -/
def fmt02 (n : Int) : String :=
  if 0 ≤ n ∧ n < 10 then "0" ++ toString n else toString n

/-- Scene count computed by `generate_video_prompt`:
`scenes = max(4, int(time_limit * 4))`. -/
def video_scenes (time_limit : ℚ) : Int :=
  max 4 (pyInt (time_limit * 4))

/-- Per-scene seconds computed by `generate_video_prompt`:
`scene_duration = int((time_limit * 60) / scenes)`. -/
def video_scene_duration (time_limit : ℚ) : Int :=
  pyInt ((time_limit * 60) / ((video_scenes time_limit : Int) : ℚ))

/-- `generate_video_prompt` from `app.py`, with the f-string template rendered
as explicit concatenation in source order. -/
def generate_video_prompt (tone target_audience industry final_content cta_text query : String)
    (time_limit : ℚ) : String :=
  let tone_instruction := (generate_prompt_guidelines tone target_audience).1
  let audience_instruction := (generate_prompt_guidelines tone target_audience).2
  let scenes := video_scenes time_limit
  let scene_duration := video_scene_duration time_limit
  "\n    \nYou are a professional **B2B video scriptwriter** who creates powerful marketing narratives.\nWrite a **timestamp-based video script** for the topic: \"" ++
    query ++
    "\" in the " ++
    (pyOr industry "enterprise") ++
    " industry.\n\n=======\x3d=======\x3d=======\x3d=======\x3d=======\x3d=======\x3d=====\n🎬 STRUCTURE\n=======\x3d=======\x3d=======\x3d=======\x3d=======\x3d=======\x3d=====\nEach scene must include:\n- **Timestamp** (e.g. 0:00–0:" ++
    fmt02 scene_duration ++
    ")\n- **scene name**\n- **Visuals:** On-screen visuals or camera direction\n- **Narration:** Voiceover content\n\nstart each section in new line\n\n=======\x3d=======\x3d=======\x3d=======\x3d=======\x3d=======\x3d=====\n🕒 TOTAL DURATION & SCENES\n=======\x3d=======\x3d=======\x3d=======\x3d=======\x3d=======\x3d=====\n- Total video duration: ~" ++
    showHalfQ time_limit ++
    " minute(s)\n- " ++
    ("Divide into ~" ++ toString scenes ++ " scenes (~" ++ toString scene_duration ++
      " seconds each)") ++
    "\n- End with a personalized Call-to-Action\n\n=======\x3d=======\x3d=======\x3d=======\x3d=======\x3d=======\x3d=====\n📖 STORYLINE FLOW\n=======\x3d=======\x3d=======\x3d=======\x3d=======\x3d=======\x3d=====\n1️⃣ **Problem Introduction** – hook the viewer immediately (Scene 1)\n2️⃣ **Product or Brand Introduction** – what you offer and why it matters\n3️⃣ **Key Feature Highlights** – focus on impact, not just specs\n4️⃣ **Benefits** – how it solves real challenges\n5️⃣ **Real-Life Example or Case Study** – add credibility\n6️⃣ **Call-to-Action & Closing** – must sound human, confident, and aligned with \"" ++
    cta_text ++
    "\"\n\n=======\x3d=======\x3d=======\x3d=======\x3d=======\x3d=======\x3d=====\n🗣️ LANGUAGE & STYLE\n=======\x3d=======\x3d=======\x3d=======\x3d=======\x3d=======\x3d=====\n- Tone: " ++
    tone_instruction ++
    "\n- Target Audience: " ++
    audience_instruction ++
    "\n- Do not add ```markdown at start and ``` at the end of response.\n- Avoid generic phrasing like \"in today’s fast-paced world\" or \"businesses need to adapt.\"\n- Use **specific**, **action-oriented**, and **emotive** language.\n- Maintain storytelling rhythm: short lines that sound natural as voiceover.\n- Keep the flow: Hook → Insight → Value → CTA.\n- visual and narration heading should be in bold.\n- start visual and narration in new line\n- Generate output in markdown format\n\n=======\x3d=======\x3d=======\x3d=======\x3d=======\x3d=======\x3d=====\n📚 CONTEXT & REFERENCE\n=======\x3d=======\x3d=======\x3d=======\x3d=======\x3d=======\x3d=====\nIndustry: " ++
    (pyOr industry "Not specified") ++
    "\nTopic: \"" ++
    query ++
    "\"\nReference Content:\n" ++
    (pyOr final_content "[No reference material provided]") ++
    "\n\n=======\x3d=======\x3d=======\x3d=======\x3d=======\x3d=======\x3d=====\n💡 OUTPUT FORMAT (Example)\n=======\x3d=======\x3d=======\x3d=======\x3d=======\x3d=======\x3d=====\nReturn only the **final timestamped script** like this:\n\n0:00–0:" ++
    fmt02 scene_duration ++
    " → [Scene 1: Problem introduction narration and visuals]  \n0:" ++
    fmt02 scene_duration ++
    "–0:" ++
    fmt02 (scene_duration * 2) ++
    " → [Scene 2: Brand introduction narration and visuals]  \n\n"

/-- A document returned by the similarity search: the chain reads
`getattr(doc, "page_content", str(doc))`. -/
structure SimDoc where
  page_content : Option String
  str_form : String
deriving DecidableEq

/-- Text payload of a similarity-search document. -/
def docText (d : SimDoc) : String :=
  match d.page_content with
  | some t => t
  | none => d.str_form

/-- External collaborators of the retrieval chain, as oracles.
`similarity_search` may raise (modelled by `Except`); the other three always
return a string, exactly as the corresponding Python helpers do. -/
structure REnv where
  extract_text_from_file : String → String
  extract_text_from_url : String → String
  similarity_search : String → Nat → Except String (List SimDoc)
  perplexity_search : String → String

/-- One observable collaborator call made by the retrieval chain. -/
inductive RCall where
  | file (name : String)
  | url (u : String)
  | sim (q : String) (k : Nat)
  | topic (q : String)
deriving DecidableEq

/-- Tier 1 concatenation: `uploaded_text += extract_text_from_file(f) + "\n"`. -/
def uploaded_text (env : REnv) (files : List String) : String :=
  files.foldl (fun acc f => acc ++ env.extract_text_from_file f ++ "\n") ""

/-- Tier 2 concatenation: `url_text += extract_text_from_url(url) + "\n"`. -/
def url_text (env : REnv) (urls : List String) : String :=
  urls.foldl (fun acc u => acc ++ env.extract_text_from_url u ++ "\n") ""

/-- Tier 3 text: top-20 similarity search joined by newlines; a missing client
yields no docs and an exception is swallowed into the empty string. -/
def hana_text (env : REnv) (query : String) (db_present : Bool) : String :=
  if db_present then
    match env.similarity_search query 20 with
    | .ok docs => if docs ≠ [] then pyJoin "\n" (docs.map docText) else ""
    | .error _ => ""
  else ""

/-- The similarity-search calls tier 3 performs. -/
def hana_calls (query : String) (db_present : Bool) : List RCall :=
  if db_present then [RCall.sim query 20] else []

/-- `retrieve_content(query, uploaded_files, url_list, db)` from `app.py`,
instrumented with the list of collaborator calls it performs. -/
def retrieve_content (env : REnv) (query : String) (files urls : List String)
    (db_present : Bool) : String × List RCall :=
  let t1 := uploaded_text env files
  let c1 := files.map RCall.file
  if pyStrip t1 ≠ "" then (pyStrip t1, c1)
  else
    let t2 := url_text env urls
    let c2 := c1 ++ urls.map RCall.url
    if pyStrip t2 ≠ "" then (pyStrip t2, c2)
    else
      let t3 := hana_text env query db_present
      let c3 := c2 ++ hana_calls query db_present
      if pyStrip t3 ≠ "" then (pyStrip t3, c3)
      else
        let p := env.perplexity_search query
        let c4 := c3 ++ [RCall.topic query]
        if p ≠ "" ∧ pyStartsWith (pyLower p) "perplexity api error" = false then (p, c4)
        else ("", c4)

/-- Content type selected in the sidebar. -/
inductive CType where
  | blog
  | video
deriving DecidableEq

/-- The Streamlit session state the handlers read and write. -/
structure SessionState where
  output : String
  seo_results : List (String × String)
  last_prompt : Option String
deriving DecidableEq

/-- Observable effects of a generate/refine action. -/
inductive Effect where
  | uiError (msg : String)
  | stop
  | retrieveCall (q : String)
  | chatCall (prompt : String)
  | rerun
deriving DecidableEq

/-- The `cta_mapping` dict. -/
def cta_mapping : List (String × String) := [
  ("Book Assessment", "Book your free SAP Clean Core Assessment today."),
  ("Request a demo", "Request a demo to see the solution in action."),
  ("Talk to our experts", "Talk to our experts to discuss your requirements."),
  ("Learn more about our solutions", "Learn more about our solutions tailored to your needs."),
  ("Contact us today", "Contact us today to get started."),
  ("Download the full guide", "Download the full guide to explore more insights."),
  ("Book a free consultation", "Book your free consultation today.")]

/-- `cta_mapping.get(cta_choice, cta_choice)`. -/
def ctaGet (choice : String) : String :=
  dictGet cta_mapping choice choice

/-- Sidebar and form inputs feeding one generate action. -/
structure GenInputs where
  content_type : CType
  query : String
  primary_keyword : String
  tone : String
  target_audience : String
  industry : String
  word_limit : Option Int
  time_limit : ℚ
  lsi_keywords : List String
  cta_choice : String
  files : List String
  urls : List String

/-- The generate-button handler (`if generate_button and query:` block of
`app.py`): validation, service init, retrieval, prompt build, chat call,
and the conditional wholesale replacement of the stored output.  `chat` is
the chat-completion client (raising modelled by `Except.error`), `init` the
outcome of `init_services`. -/
def generate_action (env : REnv) (chat : String → Except String String)
    (init : Except String Unit) (inp : GenInputs) (st : SessionState) :
    SessionState × List Effect :=
  if inp.query = "" then (st, [])
  else if inp.content_type = CType.blog ∧ pyStrip inp.primary_keyword = "" then
    (st, [Effect.uiError "For Blog generation, Primary Keyword is required."])
  else
    match init with
    | .error e => (st, [Effect.uiError ("Service init error: " ++ e), Effect.stop])
    | .ok _ =>
      let full_query := pyStrip inp.query
      let final_content := (retrieve_content env full_query inp.files inp.urls true).1
      let cta_text := ctaGet inp.cta_choice
      let prompt :=
        match inp.content_type with
        | CType.blog =>
          generate_blog_prompt inp.tone inp.target_audience inp.industry full_query
            inp.word_limit final_content (pyStrip inp.primary_keyword) inp.lsi_keywords cta_text
        | CType.video =>
          generate_video_prompt inp.tone inp.target_audience inp.industry final_content
            cta_text inp.query inp.time_limit
      match chat prompt with
      | .error e =>
        (st, [Effect.retrieveCall full_query, Effect.chatCall prompt,
          Effect.uiError ("OpenAI API error: " ++ e)])
      | .ok output =>
        if output ≠ "" then
          ({ output := output,
             seo_results := if inp.content_type = CType.blog then [] else st.seo_results,
             last_prompt := some full_query },
           [Effect.retrieveCall full_query, Effect.chatCall prompt, Effect.rerun])
        else
          (st, [Effect.retrieveCall full_query, Effect.chatCall prompt])

/-- The refinement prompt synthesized by the refine handler. -/
def refine_prompt (refine_instruction output : String) : String :=
  "Refine the following content based on instruction: \x27" ++ pyStrip refine_instruction ++
    "\x27\n\nContent:\n" ++ output

/-- The apply-refine handler (`if apply_refine and ...` block of `app.py`). -/
def refine_action (chat : String → Except String String) (init : Except String Unit)
    (content_type : CType) (refine_instruction : String) (st : SessionState) :
    SessionState × List Effect :=
  if st.output = "" ∨ refine_instruction = "" ∨ pyStrip refine_instruction = "" then (st, [])
  else
    match init with
    | .error e => (st, [Effect.uiError ("Service init error: " ++ e), Effect.stop])
    | .ok _ =>
      let prompt := refine_prompt refine_instruction st.output
      match chat prompt with
      | .error e => (st, [Effect.chatCall prompt, Effect.uiError ("Refinement error: " ++ e)])
      | .ok new_output =>
        if new_output ≠ "" then
          ({ st with
             output := new_output,
             seo_results := if content_type = CType.blog then [] else st.seo_results },
           [Effect.chatCall prompt, Effect.rerun])
        else
          (st, [Effect.chatCall prompt])

/-- Oracle environment whose collaborators all come back empty except the
Perplexity topic search, which returns text with trailing whitespace. -/
def cexEnvTier4 : REnv where
  extract_text_from_file := fun _ => ""
  extract_text_from_url := fun _ => ""
  similarity_search := fun _ _ => .ok []
  perplexity_search := fun _ => "hi "

/-- Oracle environment whose URL fetcher reports its diagnostic error string. -/
def cexEnvUrlError : REnv where
  extract_text_from_file := fun _ => ""
  extract_text_from_url := fun _ => "Error extracting URL content: boom"
  similarity_search := fun _ _ => .ok []
  perplexity_search := fun _ => ""

/-- Oracle environment with every collaborator empty. -/
def cexEnvEmpty : REnv where
  extract_text_from_file := fun _ => ""
  extract_text_from_url := fun _ => ""
  similarity_search := fun _ _ => .ok []
  perplexity_search := fun _ => ""

/-- Concrete blog inputs used by witnesses and counterexamples. -/
def sampleBlogInputs : GenInputs where
  content_type := CType.blog
  query := "clean core"
  primary_keyword := "SAP BTP"
  tone := "Professional"
  target_audience := "Senior Management"
  industry := ""
  word_limit := some 1000
  time_limit := 3 / 2
  lsi_keywords := []
  cta_choice := "Book Assessment"
  files := []
  urls := []

/-- Concrete session state used by witnesses and counterexamples. -/
def sampleState : SessionState where
  output := "old output"
  seo_results := [("keyword_in_title", "yes")]
  last_prompt := some "previous topic"

/-- Blog inputs whose primary keyword is whitespace-only. -/
def sampleBlogNoKeyword : GenInputs :=
  { sampleBlogInputs with primary_keyword := "  " }

/-- Oracle environment whose Perplexity search reports its diagnostic error. -/
def cexEnvPerpError : REnv where
  extract_text_from_file := fun _ => ""
  extract_text_from_url := fun _ => ""
  similarity_search := fun _ _ => .ok []
  perplexity_search := fun _ => "Perplexity API Error: boom"

/-- Oracle environment with an uploaded document reading "Alpha" and lower
tiers that would be visibly wrong to consult. -/
def envAlpha : REnv where
  extract_text_from_file := fun _ => "Alpha"
  extract_text_from_url := fun _ => "FETCHED"
  similarity_search := fun _ _ => .error "db down"
  perplexity_search := fun _ => "SEARCHED"

/-- A word as produced by `splitWords`: non-empty and whitespace-free. -/
def goodWord (w : List Char) : Prop :=
  w ≠ [] ∧ ∀ c ∈ w, isPySpace c = false

/-! ### Helper lemmas about strings -/

theorem data_append (a b : String) : (a ++ b).data = a.data ++ b.data := rfl

theorem str_append_assoc (a b c : String) : a ++ b ++ c = a ++ (b ++ c) :=
  String.ext (by simp [data_append])

theorem strContains_self (t : String) : strContains t t :=
  ⟨"", "", String.ext (by simp [data_append])⟩

theorem strContains_appendr (s u t : String) (h : strContains s t) :
    strContains (s ++ u) t := by
  obtain ⟨p, q, hp⟩ := h
  exact ⟨p, q ++ u, by rw [hp, str_append_assoc (p ++ t) q u]⟩

theorem strContains_appendl (u s t : String) (h : strContains s t) :
    strContains (u ++ s) t := by
  obtain ⟨p, q, hp⟩ := h
  exact ⟨u ++ p, q, by rw [hp]; simp only [str_append_assoc]⟩

theorem pyOr_empty (b : String) : pyOr "" b = b := rfl

/-! ### C8, C6: blog prompt contents -/

/-- C8: for every blog request, when the resolved reference content is the
empty string, the prompt produced by `generate_blog_prompt` contains the
literal marker `[No reference content provided]` in place of the reference
section, and prompt building succeeds (it is a total function). -/
theorem generate_blog_prompt_empty_reference_marker
    (tone target_audience industry query : String) (word_limit : Option Int)
    (primary_keyword : String) (lsi_keywords : List String) (cta_text : String) :
    strContains
      (generate_blog_prompt tone target_audience industry query word_limit ""
        primary_keyword lsi_keywords cta_text)
      "[No reference content provided]" := by
  simp only [generate_blog_prompt, pyOr_empty]
  repeat
    first
    | exact strContains_appendl _ _ _ (strContains_self _)
    | apply strContains_appendr

/-- C6: for every blog request with a truthy numeric word-limit target `w`,
the prompt embeds the acceptance band `[max 1 (w - 20), w + 20]` in its
word-limit instruction, lower bound clamped to at least 1; in particular
`w = 1000` gives the band `[980, 1020]` and `w = 5` the band `[1, 25]`. -/
theorem generate_blog_prompt_word_band
    (tone target_audience industry query : String) (final_content primary_keyword : String)
    (lsi_keywords : List String) (cta_text : String) (w : Int) (hw : w ≠ 0) :
    strContains
      (generate_blog_prompt tone target_audience industry query (some w) final_content
        primary_keyword lsi_keywords cta_text)
      ("The final blog MUST be between " ++ toString (max 1 (w - 20)) ++ " and " ++
        toString (w + 20) ++
        " words. Do NOT exceed this range. Stop immediately once you reach the word limit.") ∧
    max 1 ((1000 : Int) - 20) = 980 ∧ (1000 : Int) + 20 = 1020 ∧
    max 1 ((5 : Int) - 20) = 1 ∧ (5 : Int) + 20 = 25 := by
  refine ⟨?_, by decide, by decide, by decide, by decide⟩
  have hwli : word_limit_instruction (some w) =
      "The final blog MUST be between " ++ toString (max 1 (w - 20)) ++ " and " ++
        toString (w + 20) ++
        " words. Do NOT exceed this range. Stop immediately once you reach the word limit." := by
    simp only [word_limit_instruction, if_neg hw, max_eq_left (le_max_left 1 (w - 20))]
  rw [← hwli]
  simp only [generate_blog_prompt]
  repeat
    first
    | exact strContains_appendl _ _ _ (strContains_self _)
    | apply strContains_appendr

/-- C6 witness at `w = 1000`. -/
theorem generate_blog_prompt_word_band_witness :
    (1000 : Int) ≠ 0 ∧
    strContains
      (generate_blog_prompt "Professional" "Senior Management" "" "clean core" (some 1000) ""
        "SAP BTP" [] "Book your free SAP Clean Core Assessment today.")
      ("The final blog MUST be between " ++ toString (max 1 ((1000 : Int) - 20)) ++ " and " ++
        toString ((1000 : Int) + 20) ++
        " words. Do NOT exceed this range. Stop immediately once you reach the word limit.") :=
  ⟨by decide,
    (generate_blog_prompt_word_band "Professional" "Senior Management" "" "clean core" ""
      "SAP BTP" [] "Book your free SAP Clean Core Assessment today." 1000 (by decide)).1⟩

/-! ### C5: video prompt scene arithmetic -/

/-- C5: for every positive duration `D` (in minutes), the video prompt builder
computes `scenes = max 4 ⌊D * 4⌋` and `scene_duration = ⌊D * 60 / scenes⌋`
and embeds both values in the prompt; in particular `D = 1.5` yields
`scenes = 6` and `scene_duration = 15`.  The app computes these on IEEE
doubles, which are exact on the slider's half-integral durations, so rational
arithmetic models them exactly. -/
theorem generate_video_prompt_scene_math
    (tone target_audience industry final_content cta_text query : String)
    (D : ℚ) (hD : 0 < D) :
    video_scenes D = max 4 ⌊D * 4⌋ ∧
    video_scene_duration D = ⌊D * 60 / ((max 4 ⌊D * 4⌋ : Int) : ℚ)⌋ ∧
    strContains
      (generate_video_prompt tone target_audience industry final_content cta_text query D)
      ("Divide into ~" ++ toString (video_scenes D) ++ " scenes (~" ++
        toString (video_scene_duration D) ++ " seconds each)") ∧
    video_scenes (3 / 2) = 6 ∧ video_scene_duration (3 / 2) = 15 := by
  have hscenes : video_scenes D = max 4 ⌊D * 4⌋ := by
    simp only [video_scenes, pyInt, if_pos (by positivity : (0 : ℚ) ≤ D * 4)]
  have hpos : (0 : ℚ) < ((video_scenes D : Int) : ℚ) := by
    rw [hscenes]
    have h4 : (4 : Int) ≤ max 4 ⌊D * 4⌋ := le_max_left _ _
    exact_mod_cast lt_of_lt_of_le (by norm_num : (0 : Int) < 4) h4
  have hdur : video_scene_duration D = ⌊D * 60 / ((max 4 ⌊D * 4⌋ : Int) : ℚ)⌋ := by
    rw [video_scene_duration, pyInt, if_pos (div_nonneg (by positivity) hpos.le), hscenes]
  have h6 : video_scenes (3 / 2) = 6 := by
    simp only [video_scenes, pyInt]
    rw [if_pos (by norm_num : (0 : ℚ) ≤ (3 / 2 : ℚ) * 4)]
    rw [show ((3 : ℚ) / 2) * 4 = ((6 : Int) : ℚ) by norm_num, Int.floor_intCast]
    decide
  have h15 : video_scene_duration (3 / 2) = 15 := by
    rw [video_scene_duration, h6, pyInt]
    rw [if_pos (by norm_num : (0 : ℚ) ≤ (3 / 2 : ℚ) * 60 / ((6 : Int) : ℚ))]
    rw [show ((3 : ℚ) / 2) * 60 / ((6 : Int) : ℚ) = ((15 : Int) : ℚ) by norm_num,
      Int.floor_intCast]
  refine ⟨hscenes, hdur, ?_, h6, h15⟩
  simp only [generate_video_prompt]
  repeat
    first
    | exact strContains_appendl _ _ _ (strContains_self _)
    | apply strContains_appendr

/-- C5 witness at `D = 1.5`. -/
theorem generate_video_prompt_scene_math_witness :
    (0 : ℚ) < 3 / 2 ∧
    strContains
      (generate_video_prompt "Professional" "Senior Management" "" "" "Contact us today." "ai"
        (3 / 2))
      ("Divide into ~" ++ toString (video_scenes (3 / 2)) ++ " scenes (~" ++
        toString (video_scene_duration (3 / 2)) ++ " seconds each)") :=
  ⟨by norm_num,
    (generate_video_prompt_scene_math "Professional" "Senior Management" "" "" "Contact us today."
      "ai" (3 / 2) (by norm_num)).2.2.1⟩

/-! ### C7: blog generation without a primary keyword is rejected up front -/

/-- C7: for every triggered generate action (non-empty topic) with content
type Blog and an empty-or-whitespace primary keyword, the action reports the
validation error and does nothing else: the state is unchanged and the trace
shows no retrieval call and no chat call. -/
theorem generate_blog_missing_keyword_rejected
    (env : REnv) (chat : String → Except String String) (init : Except String Unit)
    (inp : GenInputs) (st : SessionState)
    (hq : inp.query ≠ "") (hb : inp.content_type = CType.blog)
    (hk : pyStrip inp.primary_keyword = "") :
    generate_action env chat init inp st =
      (st, [Effect.uiError "For Blog generation, Primary Keyword is required."]) ∧
    (∀ q, Effect.retrieveCall q ∉ (generate_action env chat init inp st).2) ∧
    (∀ p, Effect.chatCall p ∉ (generate_action env chat init inp st).2) := by
  have h : generate_action env chat init inp st =
      (st, [Effect.uiError "For Blog generation, Primary Keyword is required."]) := by
    simp only [generate_action, if_neg hq, if_pos (And.intro hb hk)]
  refine ⟨h, ?_, ?_⟩ <;> intro x <;> rw [h] <;> simp

/-- C7 witness on concrete inputs with a whitespace-only keyword. -/
theorem generate_blog_missing_keyword_rejected_witness :
    sampleBlogNoKeyword.query ≠ "" ∧ sampleBlogNoKeyword.content_type = CType.blog ∧
    pyStrip sampleBlogNoKeyword.primary_keyword = "" ∧
    generate_action cexEnvEmpty (fun _ => Except.ok "text") (Except.ok ()) sampleBlogNoKeyword
        sampleState =
      (sampleState, [Effect.uiError "For Blog generation, Primary Keyword is required."]) :=
  ⟨by decide, by decide, by decide,
    (generate_blog_missing_keyword_rejected cexEnvEmpty (fun _ => Except.ok "text")
      (Except.ok ()) sampleBlogNoKeyword sampleState (by decide) (by decide) (by decide)).1⟩

/-! ### Session-state helpers -/

theorem generate_action_state (env : REnv) (res : Except String String)
    (init : Except String Unit) (inp : GenInputs) (st : SessionState) :
    (generate_action env (fun _ => res) init inp st).1 = st ∨
    ∃ out, res = Except.ok out ∧ out ≠ "" ∧
      (generate_action env (fun _ => res) init inp st).1.output = out := by
  by_cases hq : inp.query = ""
  · left; simp [generate_action, hq]
  by_cases hv : inp.content_type = CType.blog ∧ pyStrip inp.primary_keyword = ""
  · left; simp [generate_action, hq, hv]
  cases init with
  | error e => left; simp [generate_action, hq, hv]
  | ok u =>
    cases res with
    | error e => left; simp [generate_action, hq, hv]
    | ok out =>
      by_cases h : out = ""
      · left; simp [generate_action, hq, hv, h]
      · right; exact ⟨out, rfl, h, by simp [generate_action, hq, hv, h]⟩

theorem refine_action_state (res : Except String String) (init : Except String Unit)
    (ct : CType) (instr : String) (st : SessionState) :
    (refine_action (fun _ => res) init ct instr st).1 = st ∨
    ∃ out, res = Except.ok out ∧ out ≠ "" ∧
      (refine_action (fun _ => res) init ct instr st).1.output = out := by
  by_cases hg : st.output = "" ∨ instr = "" ∨ pyStrip instr = ""
  · left; simp [refine_action, hg]
  cases init with
  | error e => left; simp [refine_action, hg]
  | ok u =>
    cases res with
    | error e => left; simp [refine_action, hg]
    | ok out =>
      by_cases h : out = ""
      · left; simp [refine_action, hg, h]
      · right; exact ⟨out, rfl, h, by simp [refine_action, hg, h]⟩

theorem generate_action_error_reported (env : REnv) (e : String)
    (inp : GenInputs) (st : SessionState) (hq : inp.query ≠ "")
    (hv : ¬(inp.content_type = CType.blog ∧ pyStrip inp.primary_keyword = "")) :
    Effect.uiError ("OpenAI API error: " ++ e) ∈
      (generate_action env (fun _ => Except.error e) (Except.ok ()) inp st).2 := by
  simp only [generate_action, if_neg hq, if_neg hv]
  simp

theorem refine_action_error_reported (e : String) (ct : CType) (instr : String)
    (st : SessionState) (h1 : st.output ≠ "") (h2 : instr ≠ "") (h3 : pyStrip instr ≠ "") :
    Effect.uiError ("Refinement error: " ++ e) ∈
      (refine_action (fun _ => Except.error e) (Except.ok ()) ct instr st).2 := by
  rw [refine_action, if_neg (by simp [h1, h2, h3])]
  simp

/-! ### C3: failure leaves output unchanged; success replaces it wholesale -/

/-- C3 (amended): for every stored session output and every generate or refine
action, if the chat-completion call raises then the whole session state — in
particular the stored output — is left exactly unchanged and an error is
reported; if the call succeeds with a non-empty completion, the stored output
is replaced wholesale by that completion.  (A successful but empty completion
leaves the stored output unchanged; see the counterexample.) -/
theorem session_error_preserves_success_replaces
    (env : REnv) (res : Except String String) (inp : GenInputs) (ct : CType)
    (instr : String) (st : SessionState) :
    (∀ e, res = Except.error e →
      (generate_action env (fun _ => res) (Except.ok ()) inp st).1 = st ∧
      (refine_action (fun _ => res) (Except.ok ()) ct instr st).1 = st ∧
      (inp.query ≠ "" → ¬(inp.content_type = CType.blog ∧ pyStrip inp.primary_keyword = "") →
        Effect.uiError ("OpenAI API error: " ++ e) ∈
          (generate_action env (fun _ => res) (Except.ok ()) inp st).2) ∧
      (st.output ≠ "" → instr ≠ "" → pyStrip instr ≠ "" →
        Effect.uiError ("Refinement error: " ++ e) ∈
          (refine_action (fun _ => res) (Except.ok ()) ct instr st).2)) ∧
    (∀ out, res = Except.ok out → out ≠ "" →
      (inp.query ≠ "" → ¬(inp.content_type = CType.blog ∧ pyStrip inp.primary_keyword = "") →
        (generate_action env (fun _ => res) (Except.ok ()) inp st).1.output = out) ∧
      (st.output ≠ "" → instr ≠ "" → pyStrip instr ≠ "" →
        (refine_action (fun _ => res) (Except.ok ()) ct instr st).1.output = out)) := by
  constructor
  · rintro e rfl
    refine ⟨?_, ?_, ?_, ?_⟩
    · rcases generate_action_state env (Except.error e) (Except.ok ()) inp st with h | ⟨o, ho, _⟩
      · exact h
      · cases ho
    · rcases refine_action_state (Except.error e) (Except.ok ()) ct instr st with h | ⟨o, ho, _⟩
      · exact h
      · cases ho
    · exact fun hq hv => generate_action_error_reported env e inp st hq hv
    · exact fun h1 h2 h3 => refine_action_error_reported e ct instr st h1 h2 h3
  · rintro out rfl hout
    constructor
    · intro hq hv
      simp only [generate_action, if_neg hq, if_neg hv]
      simp [hout]
    · intro h1 h2 h3
      rw [refine_action, if_neg (by simp [h1, h2, h3])]
      simp [hout]

/-- C3 counterexample: a generate action whose chat call succeeds with the
empty completion does not replace the stored output with that completion —
the old output stays, falsifying "when a generate or refine call succeeds,
the stored output is replaced wholesale by the new completion". -/
theorem session_empty_success_not_replaced_cex :
    (generate_action cexEnvEmpty (fun _ => Except.ok "") (Except.ok ()) sampleBlogInputs
        sampleState).1.output = "old output" ∧
    ("old output" : String) ≠ "" := by
  exact ⟨by decide, by decide⟩

/-- C3 witness: the amended theorem applied at a raising chat call and at a
succeeding non-empty one, on concrete inputs. -/
theorem session_error_preserves_success_replaces_witness :
    ((generate_action cexEnvEmpty (fun _ => Except.error "boom") (Except.ok ())
        sampleBlogInputs sampleState).1 = sampleState ∧
      Effect.uiError ("OpenAI API error: " ++ "boom") ∈
        (generate_action cexEnvEmpty (fun _ => Except.error "boom") (Except.ok ())
          sampleBlogInputs sampleState).2) ∧
    (refine_action (fun _ => Except.ok "new text") (Except.ok ()) CType.blog "shorten it"
        sampleState).1.output = "new text" := by
  constructor
  · have h := (session_error_preserves_success_replaces cexEnvEmpty (Except.error "boom")
      sampleBlogInputs CType.blog "shorten it" sampleState).1 "boom" rfl
    exact ⟨h.1, h.2.2.1 (by decide) (by decide)⟩
  · exact ((session_error_preserves_success_replaces cexEnvEmpty (Except.ok "new text")
      sampleBlogInputs CType.blog "shorten it" sampleState).2 "new text" rfl
      (by decide)).2 (by decide) (by decide) (by decide)

/-! ### C10: only non-empty completions are ever stored -/

/-- C10: for every generate or refine action, a chat call that returns the
empty string or raises leaves the whole session state — stored output and SEO
results included — exactly unchanged, and the stored output is only ever
assigned a non-empty completion. -/
theorem session_output_replaced_only_by_nonempty
    (env : REnv) (res : Except String String) (init : Except String Unit)
    (inp : GenInputs) (ct : CType) (instr : String) (st : SessionState) :
    ((res = Except.ok "" ∨ ∃ e, res = Except.error e) →
      (generate_action env (fun _ => res) init inp st).1 = st ∧
      (refine_action (fun _ => res) init ct instr st).1 = st) ∧
    ((generate_action env (fun _ => res) init inp st).1.output = st.output ∨
      ∃ out, res = Except.ok out ∧ out ≠ "" ∧
        (generate_action env (fun _ => res) init inp st).1.output = out) ∧
    ((refine_action (fun _ => res) init ct instr st).1.output = st.output ∨
      ∃ out, res = Except.ok out ∧ out ≠ "" ∧
        (refine_action (fun _ => res) init ct instr st).1.output = out) := by
  refine ⟨?_, ?_, ?_⟩
  · intro hres
    constructor
    · rcases generate_action_state env res init inp st with h | ⟨o, ho, hne, _⟩
      · exact h
      · rcases hres with h' | ⟨e, h'⟩ <;> rw [h'] at ho
        · cases ho; exact absurd rfl hne
        · cases ho
    · rcases refine_action_state res init ct instr st with h | ⟨o, ho, hne, _⟩
      · exact h
      · rcases hres with h' | ⟨e, h'⟩ <;> rw [h'] at ho
        · cases ho; exact absurd rfl hne
        · cases ho
  · rcases generate_action_state env res init inp st with h | ⟨o, ho, hne, hout⟩
    · exact Or.inl (by rw [h])
    · exact Or.inr ⟨o, ho, hne, hout⟩
  · rcases refine_action_state res init ct instr st with h | ⟨o, ho, hne, hout⟩
    · exact Or.inl (by rw [h])
    · exact Or.inr ⟨o, ho, hne, hout⟩

/-- C10 witness: empty completion on concrete inputs leaves the state intact. -/
theorem session_output_replaced_only_by_nonempty_witness :
    ((Except.ok "" : Except String String) = Except.ok "" ∨
      ∃ e, (Except.ok "" : Except String String) = .error e) ∧
    (generate_action cexEnvEmpty (fun _ => Except.ok "") (Except.ok ()) sampleBlogInputs
        sampleState).1 = sampleState ∧
    (refine_action (fun _ => Except.ok "") (Except.ok ()) CType.blog "shorten it"
        sampleState).1 = sampleState :=
  ⟨Or.inl rfl,
    (session_output_replaced_only_by_nonempty cexEnvEmpty (Except.ok "") (Except.ok ())
      sampleBlogInputs CType.blog "shorten it" sampleState).1 (Or.inl rfl)⟩

/-! ### C1, C2: the retrieval chain -/

/-- C1 (amended): `retrieve_content` evaluates its four tiers in strict
priority order and short-circuits — the call trace shows that no lower tier's
fetcher or client is invoked once a higher tier is non-empty after trimming.
For tiers 1–3 the returned string is the whitespace-trimmed concatenation of
the first tier whose output is non-empty after trimming; tier 4, however, is
selected when the Perplexity string is non-empty *before* trimming and does
not start (case-insensitively) with "perplexity api error", and is returned
untrimmed.  If no tier qualifies, the empty string is returned. -/
theorem retrieve_content_chain (env : REnv) (q : String) (files urls : List String)
    (dbp : Bool) :
    (pyStrip (uploaded_text env files) ≠ "" →
      retrieve_content env q files urls dbp =
        (pyStrip (uploaded_text env files), files.map RCall.file)) ∧
    (pyStrip (uploaded_text env files) = "" → pyStrip (url_text env urls) ≠ "" →
      retrieve_content env q files urls dbp =
        (pyStrip (url_text env urls), files.map RCall.file ++ urls.map RCall.url)) ∧
    (pyStrip (uploaded_text env files) = "" → pyStrip (url_text env urls) = "" →
      pyStrip (hana_text env q dbp) ≠ "" →
      retrieve_content env q files urls dbp =
        (pyStrip (hana_text env q dbp),
          files.map RCall.file ++ urls.map RCall.url ++ hana_calls q dbp)) ∧
    (pyStrip (uploaded_text env files) = "" → pyStrip (url_text env urls) = "" →
      pyStrip (hana_text env q dbp) = "" →
      retrieve_content env q files urls dbp =
        ((if env.perplexity_search q ≠ "" ∧
            pyStartsWith (pyLower (env.perplexity_search q)) "perplexity api error" = false
          then env.perplexity_search q else ""),
          files.map RCall.file ++ urls.map RCall.url ++ hana_calls q dbp ++
            [RCall.topic q])) := by
  refine ⟨?_, ?_, ?_, ?_⟩
  · intro h1
    simp only [retrieve_content, if_pos h1]
  · intro h1 h2
    have h1' : ¬(pyStrip (uploaded_text env files) ≠ "") := by simp [h1]
    simp only [retrieve_content, if_neg h1', if_pos h2]
  · intro h1 h2 h3
    have h1' : ¬(pyStrip (uploaded_text env files) ≠ "") := by simp [h1]
    have h2' : ¬(pyStrip (url_text env urls) ≠ "") := by simp [h2]
    simp only [retrieve_content, if_neg h1', if_neg h2', if_pos h3]
  · intro h1 h2 h3
    have h1' : ¬(pyStrip (uploaded_text env files) ≠ "") := by simp [h1]
    have h2' : ¬(pyStrip (url_text env urls) ≠ "") := by simp [h2]
    have h3' : ¬(pyStrip (hana_text env q dbp) ≠ "") := by simp [h3]
    simp only [retrieve_content, if_neg h1', if_neg h2', if_neg h3']
    by_cases hp : env.perplexity_search q ≠ "" ∧
        pyStartsWith (pyLower (env.perplexity_search q)) "perplexity api error" = false
    · rw [if_pos hp, if_pos hp]
    · rw [if_neg hp, if_neg hp]

/-- C1 counterexample: with tiers 1–3 empty and a Perplexity result carrying
trailing whitespace, the first tier that is non-empty after trimming is the
topic search, yet the returned string is that tier's output *untrimmed* —
falsifying "the returned string is the whitespace-trimmed concatenation of
the first tier whose concatenated output is non-empty after trimming". -/
theorem retrieve_content_tier4_untrimmed_cex :
    pyStrip (uploaded_text cexEnvTier4 []) = "" ∧
    pyStrip (url_text cexEnvTier4 []) = "" ∧
    pyStrip (hana_text cexEnvTier4 "topic" false) = "" ∧
    pyStrip (cexEnvTier4.perplexity_search "topic") = "hi" ∧
    (retrieve_content cexEnvTier4 "topic" [] [] false).1 = "hi " ∧
    ("hi " : String) ≠ "hi" := by
  exact ⟨by decide, by decide, by decide, by decide, by decide, by decide⟩

/-- C1 witness: on the spec's own example — one uploaded document reading
"Alpha" and a non-empty URL list — the result is exactly the trimmed uploaded
text and the trace shows the fetcher is never invoked. -/
theorem retrieve_content_chain_witness :
    pyStrip (uploaded_text envAlpha ["doc1"]) ≠ "" ∧
    retrieve_content envAlpha "topic" ["doc1"] ["http://x"] true =
      ("Alpha", [RCall.file "doc1"]) := by
  have h := (retrieve_content_chain envAlpha "topic" ["doc1"] ["http://x"] true).1 (by decide)
  refine ⟨by decide, ?_⟩
  rw [h]
  decide

/-- C2 (amended): only the topic-search tier's error marker is suppressed —
when tiers 1–3 are empty after trimming and `perplexity_search` returns a
string whose lowercase form starts with "perplexity api error", the chain
returns the empty string (the diagnostic never propagates, and the chain
completes rather than aborting).  A URL-tier "Error extracting URL content:"
diagnostic, by contrast, is treated as content (see the counterexample). -/
theorem retrieve_content_perplexity_error_suppressed (env : REnv) (q : String)
    (files urls : List String) (dbp : Bool)
    (h1 : pyStrip (uploaded_text env files) = "")
    (h2 : pyStrip (url_text env urls) = "")
    (h3 : pyStrip (hana_text env q dbp) = "")
    (h4 : pyStartsWith (pyLower (env.perplexity_search q)) "perplexity api error" = true) :
    (retrieve_content env q files urls dbp).1 = "" := by
  have h1' : ¬(pyStrip (uploaded_text env files) ≠ "") := by simp [h1]
  have h2' : ¬(pyStrip (url_text env urls) ≠ "") := by simp [h2]
  have h3' : ¬(pyStrip (hana_text env q dbp) ≠ "") := by simp [h3]
  have h4' : ¬(env.perplexity_search q ≠ "" ∧
      pyStartsWith (pyLower (env.perplexity_search q)) "perplexity api error" = false) := by
    simp [h4]
  simp only [retrieve_content, if_neg h1', if_neg h2', if_neg h3', if_neg h4']

/-- C2 counterexample: the URL tier performs no error-marker check, so a
fetcher diagnostic beginning "Error extracting URL content:" is returned as
the chain's result — the returned string contains (indeed, is) the
diagnostic, falsifying the claim. -/
theorem retrieve_content_url_error_propagates_cex :
    (retrieve_content cexEnvUrlError "q" [] ["http://x"] false).1 =
      "Error extracting URL content: boom" ∧
    strContains "Error extracting URL content: boom" "Error extracting URL content:" :=
  ⟨by decide, "", " boom", by decide⟩

/-- C2 witness: a Perplexity diagnostic is suppressed into the empty result. -/
theorem retrieve_content_perplexity_error_suppressed_witness :
    pyStartsWith (pyLower (cexEnvPerpError.perplexity_search "q")) "perplexity api error" =
      true ∧
    (retrieve_content cexEnvPerpError "q" [] [] false).1 = "" :=
  ⟨by decide,
    retrieve_content_perplexity_error_suppressed cexEnvPerpError "q" [] [] false
      (by decide) (by decide) (by decide) (by decide)⟩

/-! ### Word-splitting lemmas for enforce_word_limit -/

theorem splitWords_good (l : List Char) : ∀ (cur : List Char),
    (∀ c ∈ cur, isPySpace c = false) → ∀ w ∈ splitWords l cur, goodWord w := by
  induction l with
  | nil =>
    intro cur hcur w hw
    by_cases hc : cur = []
    · simp [splitWords, hc] at hw
    · simp only [splitWords, if_neg hc, List.mem_singleton] at hw
      subst hw
      exact ⟨by simpa using hc, fun c hcm => hcur c (List.mem_reverse.mp hcm)⟩
  | cons a t ih =>
    intro cur hcur w hw
    simp only [splitWords] at hw
    by_cases ha : isPySpace a = true
    · rw [if_pos ha] at hw
      by_cases hc : cur = []
      · rw [if_pos hc] at hw
        exact ih [] (by simp) w hw
      · rw [if_neg hc] at hw
        rcases List.mem_cons.mp hw with h | h
        · subst h
          exact ⟨by simpa using hc, fun c hcm => hcur c (List.mem_reverse.mp hcm)⟩
        · exact ih [] (by simp) w h
    · rw [if_neg ha] at hw
      refine ih (a :: cur) ?_ w hw
      intro c hc
      rcases List.mem_cons.mp hc with h | h
      · subst h; simpa using ha
      · exact hcur c h

theorem splitWords_word (w : List Char) : ∀ (rest cur : List Char),
    (∀ c ∈ w, isPySpace c = false) →
    splitWords (w ++ rest) cur = splitWords rest (w.reverse ++ cur) := by
  induction w with
  | nil => intro rest cur _; simp
  | cons a t ih =>
    intro rest cur h
    have ha : isPySpace a = false := h a (List.mem_cons_self a t)
    simp only [List.cons_append, splitWords, List.append_eq]
    rw [if_neg (by simp [ha])]
    rw [ih rest (a :: cur) (fun c hc => h c (List.mem_cons_of_mem a hc))]
    simp [List.append_assoc]

theorem splitWords_join (ws : List (List Char)) (h : ∀ w ∈ ws, goodWord w) :
    splitWords (joinWords ws) [] = ws := by
  induction ws with
  | nil => simp [joinWords, splitWords]
  | cons w vs ih =>
    have hw := h w (List.mem_cons_self w vs)
    cases vs with
    | nil =>
      have h2 := splitWords_word w [] [] hw.2
      simp only [List.append_nil] at h2
      simp only [joinWords, h2, splitWords]
      rw [if_neg (by simpa using hw.1)]
      simp
    | cons v vs' =>
      simp only [joinWords]
      rw [splitWords_word w (' ' :: joinWords (v :: vs')) [] hw.2]
      simp only [List.append_nil, splitWords]
      rw [if_pos (show isPySpace ' ' = true from rfl)]
      rw [if_neg (by simpa using hw.1)]
      rw [ih (fun x hx => h x (List.mem_cons_of_mem w hx))]
      simp

theorem joinWords_concat (init : List (List Char)) (w : List Char) (hinit : init ≠ []) :
    joinWords (init ++ [w]) = joinWords init ++ ' ' :: w := by
  induction init with
  | nil => exact absurd rfl hinit
  | cons a t ih =>
    cases t with
    | nil => simp [joinWords]
    | cons b t' =>
      have ih' := ih (by simp)
      rw [List.cons_append] at ih'
      simp only [List.cons_append, joinWords, List.append_eq]
      rw [ih']
      simp [List.append_assoc]

theorem rstripPunct_append (a b : List Char) :
    rstripPunct (a ++ b) =
      if rstripPunct b = [] then rstripPunct a else a ++ rstripPunct b := by
  unfold rstripPunct
  rw [List.reverse_append, List.dropWhile_append]
  by_cases hb : List.dropWhile isRStripChar b.reverse = []
  · have e1 : (List.dropWhile isRStripChar b.reverse).isEmpty = true := by simp [hb]
    have e2 : (List.dropWhile isRStripChar b.reverse).reverse = [] := by simp [hb]
    rw [if_pos e1, if_pos e2]
  · have e1 : ¬((List.dropWhile isRStripChar b.reverse).isEmpty = true) := by simp [hb]
    have e2 : ¬((List.dropWhile isRStripChar b.reverse).reverse = []) := by simp [hb]
    rw [if_neg e1, if_neg e2, List.reverse_append, List.reverse_reverse]

theorem mem_rstripPunct {c : Char} {l : List Char} (h : c ∈ rstripPunct l) : c ∈ l := by
  unfold rstripPunct at h
  rw [List.mem_reverse] at h
  exact List.mem_reverse.mp ((List.dropWhile_sublist isRStripChar).subset h)

theorem splitWords_rstrip_dot (ws : List (List Char)) (h : ∀ w ∈ ws, goodWord w)
    (hne : ws ≠ []) :
    (splitWords (rstripPunct (joinWords ws) ++ ['.']) []).length = ws.length := by
  rcases List.eq_nil_or_concat ws with rfl | ⟨init, w, rfl⟩
  · exact absurd rfl hne
  rw [List.concat_eq_append] at h ⊢
  have hw : goodWord w := h w (by simp)
  have hdotGood : goodWord ['.'] := ⟨by simp, by intro c hc; simp at hc; subst hc; rfl⟩
  by_cases hinit : init = []
  · subst hinit
    simp only [List.nil_append]
    have hjw : joinWords [w] = w := rfl
    rw [hjw]
    by_cases hrw : rstripPunct w = []
    · rw [hrw]
      rfl
    · have hgw : goodWord (rstripPunct w ++ ['.']) := by
        refine ⟨by simp, ?_⟩
        intro c hc
        rcases List.mem_append.mp hc with hm | hm
        · exact hw.2 c (mem_rstripPunct hm)
        · simp at hm; subst hm; rfl
      have hj := splitWords_join [rstripPunct w ++ ['.']] (by
        intro x hx; simp at hx; subst hx; exact hgw)
      have hjs : joinWords [rstripPunct w ++ ['.']] = rstripPunct w ++ ['.'] := rfl
      rw [hjs] at hj
      rw [hj]
      simp
  · rw [joinWords_concat init w hinit]
    rw [show (' ' :: w : List Char) = [' '] ++ w from rfl]
    by_cases hrw : rstripPunct w = []
    · have hsw : rstripPunct ([' '] ++ w) = [' '] := by
        rw [rstripPunct_append [' '] w, if_pos hrw]
        rfl
      have hne1 : ¬(rstripPunct ([' '] ++ w) = []) := by rw [hsw]; simp
      have houter : rstripPunct (joinWords init ++ ([' '] ++ w)) = joinWords init ++ [' '] := by
        rw [rstripPunct_append (joinWords init) ([' '] ++ w), if_neg hne1, hsw]
      rw [houter]
      have heq : joinWords init ++ [' '] ++ ['.'] = joinWords (init ++ [['.']]) := by
        rw [joinWords_concat init ['.'] hinit]
        simp [List.append_assoc]
      rw [heq]
      have hgood : ∀ x ∈ init ++ [['.']], goodWord x := by
        intro x hx
        rcases List.mem_append.mp hx with hm | hm
        · exact h x (List.mem_append_left _ hm)
        · simp at hm; subst hm; exact hdotGood
      rw [splitWords_join _ hgood]
      simp
    · have hsw : rstripPunct ([' '] ++ w) = [' '] ++ rstripPunct w := by
        rw [rstripPunct_append [' '] w, if_neg hrw]
      have hne1 : ¬(rstripPunct ([' '] ++ w) = []) := by rw [hsw]; simp
      have houter : rstripPunct (joinWords init ++ ([' '] ++ w)) =
          joinWords init ++ ([' '] ++ rstripPunct w) := by
        rw [rstripPunct_append (joinWords init) ([' '] ++ w), if_neg hne1, hsw]
      rw [houter]
      have heq : joinWords init ++ ([' '] ++ rstripPunct w) ++ ['.'] =
          joinWords (init ++ [rstripPunct w ++ ['.']]) := by
        rw [joinWords_concat init (rstripPunct w ++ ['.']) hinit]
        simp [List.append_assoc]
      rw [heq]
      have hgood : ∀ x ∈ init ++ [rstripPunct w ++ ['.']], goodWord x := by
        intro x hx
        rcases List.mem_append.mp hx with hm | hm
        · exact h x (List.mem_append_left _ hm)
        · simp at hm; subst hm
          refine ⟨by simp, ?_⟩
          intro c hc
          rcases List.mem_append.mp hc with hm2 | hm2
          · exact hw.2 c (mem_rstripPunct hm2)
          · simp at hm2; subst hm2; rfl
      rw [splitWords_join _ hgood]
      simp

/-! ### Bridging enforce_word_limit to the char-level lemmas -/

theorem wordCount_eq (s : String) : wordCount s = (splitWords s.data []).length := by
  simp [wordCount, pySplit]

theorem pyJoin_space_data (ws : List (List Char)) :
    (pyJoin " " (ws.map fun w => (⟨w⟩ : String))).data = joinWords ws := by
  induction ws with
  | nil => rfl
  | cons w vs ih =>
    cases vs with
    | nil => rfl
    | cons v vs' =>
      simp only [List.map_cons] at ih ⊢
      show ((⟨w⟩ : String) ++ " " ++ pyJoin " " _).data = _
      rw [data_append, data_append, ih]
      show w ++ [' '] ++ joinWords (v :: vs') = joinWords (w :: v :: vs')
      simp [joinWords]

theorem enforce_word_limit_short (s : String) (L : Int)
    (h : (wordCount s : Int) ≤ L ∨ L ≤ 0) : enforce_word_limit s L = s := by
  by_cases h0 : L = 0 ∨ L ≤ 0
  · simp only [enforce_word_limit]; rw [if_pos h0]
  · have hle : ((pySplit s).length : Int) ≤ L := by
      rcases h with h | h
      · simpa [wordCount] using h
      · exact absurd (Or.inr h) h0
    simp only [enforce_word_limit]
    rw [if_neg h0, if_pos hle]

theorem enforce_truncated (text : String) (L : Int) (hL : 0 < L)
    (hgt : L < (wordCount text : Int)) :
    wordCount (enforce_word_limit text L) = L.toNat ∧
    pyEndsTerminal (enforce_word_limit text L) = true := by
  have h0 : ¬(L = 0 ∨ L ≤ 0) := by omega
  have hle : ¬(((pySplit text).length : Int) ≤ L) := by
    simp only [wordCount] at hgt; omega
  have henf : enforce_word_limit text L =
      (if pyEndsTerminal (pyJoin " " ((pySplit text).take L.toNat)) then
        pyJoin " " ((pySplit text).take L.toNat)
      else pyRStripPunct (pyJoin " " ((pySplit text).take L.toNat)) ++ ".") := by
    simp only [enforce_word_limit]
    rw [if_neg h0, if_neg hle]
  have hW : pySplit text = (splitWords text.data []).map fun w => (⟨w⟩ : String) := rfl
  have hnlt : L.toNat < (splitWords text.data []).length := by
    simp only [wordCount_eq] at hgt; omega
  have hGood : ∀ w ∈ (splitWords text.data []).take L.toNat, goodWord w := fun w hw =>
    splitWords_good text.data [] (by simp) w (List.take_subset _ _ hw)
  have hTklen : ((splitWords text.data []).take L.toNat).length = L.toNat := by
    rw [List.length_take]; omega
  have hTkne : (splitWords text.data []).take L.toNat ≠ [] := by
    intro hcon
    rw [hcon] at hTklen
    simp at hTklen
    omega
  have htrimdata : (pyJoin " " ((pySplit text).take L.toNat)).data =
      joinWords ((splitWords text.data []).take L.toNat) := by
    rw [hW, ← List.map_take]
    exact pyJoin_space_data _
  by_cases hterm : pyEndsTerminal (pyJoin " " ((pySplit text).take L.toNat)) = true
  · rw [henf, if_pos hterm]
    refine ⟨?_, hterm⟩
    rw [wordCount_eq, htrimdata, splitWords_join _ hGood, hTklen]
  · rw [henf, if_neg hterm]
    have hrdata : (pyRStripPunct (pyJoin " " ((pySplit text).take L.toNat)) ++ ".").data =
        rstripPunct (joinWords ((splitWords text.data []).take L.toNat)) ++ ['.'] := by
      rw [data_append]
      show rstripPunct (pyJoin " " ((pySplit text).take L.toNat)).data ++ ['.'] = _
      rw [htrimdata]
    constructor
    · rw [wordCount_eq, hrdata, splitWords_rstrip_dot _ hGood hTkne, hTklen]
    · rw [pyEndsTerminal, hrdata, List.getLast?_concat]
      rfl

/-! ### C4: enforce_word_limit bounds and terminal punctuation -/

/-- C4: for every text and every word-limit target `L > 0`,
`enforce_word_limit text L` returns a string with at most `L`
whitespace-separated words, and whenever the input had more than `L` words
(truncation occurred), the returned string ends in '.', '!' or '?'. -/
theorem enforce_word_limit_bounds (text : String) (L : Int) (hL : 0 < L) :
    ((wordCount (enforce_word_limit text L) : Int) ≤ L) ∧
    (L < (wordCount text : Int) → pyEndsTerminal (enforce_word_limit text L) = true) := by
  by_cases hgt : L < (wordCount text : Int)
  · obtain ⟨hc, he⟩ := enforce_truncated text L hL hgt
    exact ⟨by rw [hc]; omega, fun _ => he⟩
  · have hid : enforce_word_limit text L = text := enforce_word_limit_short text L
      (Or.inl (by omega))
    rw [hid]
    exact ⟨by omega, fun hcon => absurd hcon hgt⟩

/-- C4 witness: a four-word input truncated to two words. -/
theorem enforce_word_limit_bounds_witness :
    (0 : Int) < 2 ∧
    ((wordCount (enforce_word_limit "alpha beta gamma delta" 2) : Int) ≤ 2 ∧
      (2 < (wordCount "alpha beta gamma delta" : Int) →
        pyEndsTerminal (enforce_word_limit "alpha beta gamma delta" 2) = true)) :=
  ⟨by decide, enforce_word_limit_bounds "alpha beta gamma delta" 2 (by decide)⟩

/-! ### C9: enforce_word_limit is idempotent and the identity on short input -/

/-- C9: `enforce_word_limit` is idempotent, and whenever `L ≤ 0` (which
includes the falsy `L = 0`) or the text has at most `L` words, it returns the
text exactly. -/
theorem enforce_word_limit_idempotent (text : String) (L : Int) :
    enforce_word_limit (enforce_word_limit text L) L = enforce_word_limit text L ∧
    ((L ≤ 0 ∨ (wordCount text : Int) ≤ L) → enforce_word_limit text L = text) := by
  constructor
  · by_cases h0 : L ≤ 0
    · have hid := enforce_word_limit_short text L (Or.inr h0)
      rw [hid]
      exact hid
    · have hL : 0 < L := by omega
      by_cases hle : (wordCount text : Int) ≤ L
      · have hid := enforce_word_limit_short text L (Or.inl hle)
        rw [hid]
        exact hid
      · have hgt : L < (wordCount text : Int) := by omega
        obtain ⟨hc, _⟩ := enforce_truncated text L hL hgt
        exact enforce_word_limit_short _ L (Or.inl (by rw [hc]; omega))
  · intro h
    exact enforce_word_limit_short text L h.symm

/-- C9 witness: identity on an input already within the limit. -/
theorem enforce_word_limit_idempotent_witness :
    ((3 : Int) ≤ 0 ∨ (wordCount "hi there" : Int) ≤ 3) ∧
    enforce_word_limit "hi there" 3 = "hi there" :=
  ⟨Or.inr (by decide), (enforce_word_limit_idempotent "hi there" 3).2 (Or.inr (by decide))⟩

end MarketingApp
